import Mathlib

/-!
# Verification of the eye-protector core against its specification

Shallow embedding of the core components of the repository:

* `ReminderManager` (src/reminder_manager.py): the work/rest reminder
  state machine driven by a one-second tick.
* `GammaController` (src/gamma_controller.py): color-temperature to
  gamma-ramp transform.
* `BrightnessController` (src/brightness_controller.py): smooth
  brightness transitions.
* `HotkeyManager` (src/hotkey_manager.py): chord parsing and
  held-key matching.

Python integers are modelled as `Int`, Python floats as real numbers
(`ℝ`, for the transcendental gamma math) or rationals (`ℚ`, for the
brightness step arithmetic, which only involves field operations).
Side effects are modelled by returning the updated state together with
the list of observable events the call emits.
-/

namespace EyeProtector

/-- `clamp` from src/gamma_controller.py (duplicated in
src/brightness_controller.py): `max(min_val, min(value, max_val))`. -/
def clamp {α : Type} [LinearOrder α] (value min_val max_val : α) : α :=
  max min_val (min value max_val)

/-- Python `int(q)` on a fractional value truncates toward zero. -/
def pyIntQ (q : ℚ) : Int :=
  if 0 ≤ q then ⌊q⌋ else ⌈q⌉

/-- Python `int(x)` on a real value, truncating toward zero
(classical, for the real-valued gamma pipeline). -/
noncomputable def pyIntR (x : ℝ) : Int :=
  if 0 ≤ x then ⌊x⌋ else ⌈x⌉

/-! ## ReminderManager (src/reminder_manager.py) -/

/-- The three values of `ReminderManager.state`
(`STATE_IDLE`, `STATE_WORKING`, `STATE_RESTING`). -/
inductive RState : Type
  | idle
  | working
  | resting
deriving DecidableEq, Repr

/-- Observable events a `ReminderManager` call emits:
the configuration-error status (`status_updated.emit("错误: 工作时长无效")`
in `start_timer`), the `rest_period_started` signal with its duration
argument, and the `rest_period_ended` signal. The purely cosmetic
`update_status_display` emissions and the desktop notification carry no
state and are not modelled. -/
inductive REvent : Type
  | configError
  | restStarted (duration : Int)
  | restEnded
deriving DecidableEq, Repr

/-- The mutable fields of `ReminderManager`, plus whether the QTimer is
running (`timer.isActive()`). -/
structure Reminder : Type where
  work_hours : Int
  rest_minutes : Int
  state : RState
  remaining_seconds : Int
  rest_periods_today : Int
  timer_active : Bool
deriving DecidableEq, Repr

namespace Reminder

/-- `ReminderManager.__init__`. -/
def init : Reminder :=
  { work_hours := 1
    rest_minutes := 5
    state := .idle
    remaining_seconds := 0
    rest_periods_today := 0
    timer_active := false }

/-- `ReminderManager.start_timer`: rejects `work_hours <= 0` with a
configuration-error status and no state change; otherwise enters
`STATE_WORKING` with `remaining_seconds = work_hours * 3600` and starts
the QTimer. -/
def start_timer (s : Reminder) : Reminder × List REvent :=
  if s.work_hours ≤ 0 then
    (s, [.configError])
  else
    ({ s with state := .working
              remaining_seconds := s.work_hours * 3600
              timer_active := true }, [])

/-- `ReminderManager.stop_timer`: stops the QTimer, goes `STATE_IDLE`,
zeroes `remaining_seconds`. -/
def stop_timer (s : Reminder) : Reminder :=
  { s with timer_active := false, state := .idle, remaining_seconds := 0 }

/-- `ReminderManager.set_durations`: stores the new durations, then, if
the QTimer is active, restarts via `start_timer`. -/
def set_durations (s : Reminder) (wh rm : Int) : Reminder × List REvent :=
  let s' := { s with work_hours := wh, rest_minutes := rm }
  if s'.timer_active then start_timer s' else (s', [])

/-- `ReminderManager.start_rest_period`: enters `STATE_RESTING` with
`remaining_seconds = rest_minutes * 60`, increments the daily rest
counter, emits `rest_period_started` with the duration. -/
def start_rest_period (s : Reminder) : Reminder × List REvent :=
  ({ s with state := .resting
            remaining_seconds := s.rest_minutes * 60
            rest_periods_today := s.rest_periods_today + 1 },
   [.restStarted (s.rest_minutes * 60)])

/-- `ReminderManager.end_rest_period`: emits `rest_period_ended`, then
restarts the work timer via `start_timer`. -/
def end_rest_period (s : Reminder) : Reminder × List REvent :=
  let r := start_timer s
  (r.1, .restEnded :: r.2)

/-- `ReminderManager.tick` (called once per second while the QTimer is
active): decrements `remaining_seconds` if positive, otherwise switches
phase according to the current state. -/
def tick (s : Reminder) : Reminder × List REvent :=
  if s.remaining_seconds > 0 then
    ({ s with remaining_seconds := s.remaining_seconds - 1 }, [])
  else if s.state = .working then
    start_rest_period s
  else if s.state = .resting then
    end_rest_period s
  else
    (s, [])

/-- Iterated ticks: `n` consecutive ticks (states only). -/
def tickN : Nat → Reminder → Reminder
  | 0, s => s
  | n + 1, s => tickN n (tick s).1

/-- One externally driven operation on the reminder manager: the
start/stop controls, a duration update (the settings spin boxes in
src/main_window.py are constrained to the positive ranges 1–12 hours
and 1–60 minutes, and the spec requires both durations > 0 to run), and
the QTimer tick, which only fires while the timer is active. -/
inductive Step : Reminder → Reminder → Prop
  | start (s : Reminder) : Step s (start_timer s).1
  | stop (s : Reminder) : Step s (stop_timer s)
  | set_dur (s : Reminder) (wh rm : Int) (hw : 0 < wh) (hr : 0 < rm) :
      Step s (set_durations s wh rm).1
  | tick_step (s : Reminder) (h : s.timer_active = true) : Step s (tick s).1

/-- States of the reminder manager reachable from `init` by the
externally driven operations. -/
inductive Reachable : Reminder → Prop
  | init : Reachable Reminder.init
  | step {s s' : Reminder} : Reachable s → Step s s' → Reachable s'

/-- Invariant maintained by every operation: the countdown is
non-negative, the configured durations are positive, and the QTimer is
active exactly while the manager is not idle. -/
def Inv (s : Reminder) : Prop :=
  0 ≤ s.remaining_seconds ∧ 0 < s.work_hours ∧ 0 < s.rest_minutes ∧
    (s.timer_active = true ↔ s.state ≠ RState.idle)

end Reminder

/-! ## BrightnessController (src/brightness_controller.py) -/

namespace Brightness

/-- Intermediate levels of the smooth transition loop in
`BrightnessController.set_brightness`: `int(current_level + i * level_step)`
for `i = 1 .. steps`, where `level_step = (level - current_level) / steps`
is fractional. Python `int` truncates toward zero. -/
def transition_levels (current_level level : Int) (steps : Nat) : List Int :=
  let level_step : ℚ := ((level : ℚ) - (current_level : ℚ)) / (steps : ℚ)
  (List.range' 1 steps).map fun (i : Nat) => pyIntQ ((current_level : ℚ) + (i : ℚ) * level_step)

/-- Model of `BrightnessController.set_brightness` as the list of levels
passed to the underlying `WmiSetBrightness` calls, paired with the
returned success flag. `current_level` is the result of the
`get_brightness` probe (`-1` when the current level is unobtainable).
The inter-step sleep only affects timing, never the applied sequence. -/
def set_brightness (supported : Bool) (current_level : Int) (level : Int)
    (smooth_transition : Bool) : List Int × Bool :=
  if supported then
    let lvl := clamp level 0 100
    let smooth := if current_level = -1 then false else smooth_transition
    if smooth = true ∧ current_level ≠ lvl then
      (transition_levels current_level lvl 10 ++ [lvl], true)
    else
      ([lvl], true)
  else
    ([], false)

end Brightness

/-! ## GammaController (src/gamma_controller.py) -/

namespace Gamma

/-- Model of `GammaController._calculate_color_gain`: clamp the kelvin
value to [1000, 10000], then compute the (red, green, blue) gains by the
piecewise-linear model anchored at 6500K. Python float arithmetic is
modelled over the reals. -/
noncomputable def calculate_color_gain (kelvin : Int) : ℝ × ℝ × ℝ :=
  let k := clamp kelvin 1000 10000
  if k ≤ 6500 then
    (1.0,
     clamp (0.8 + 0.2 * (((k : ℝ) - 1000) / (6500 - 1000))) 0.8 1.0,
     clamp (0.6 + 0.4 * (((k : ℝ) - 1000) / (6500 - 1000))) 0.6 1.0)
  else
    (clamp (1.0 - 0.2 * (((k : ℝ) - 6500) / (10000 - 6500))) 0.8 1.0,
     clamp (1.0 - 0.1 * (((k : ℝ) - 6500) / (10000 - 6500))) 0.9 1.0,
     1.0)

/-- One entry of the ramp loop in `GammaController.set_temperature`:
normalize `i / 255`, linearize with exponent 2.2, apply the channel
gain, re-apply the inverse exponent, clamp to [0, 1], scale to the
16-bit range with `* 65535 + 0.5` and truncate with `int`. -/
noncomputable def ramp_entry (gain : ℝ) (i : Nat) : Int :=
  let gamma : ℝ := 2.2
  let norm_intensity : ℝ := (i : ℝ) / 255.0
  let linear_intensity : ℝ := norm_intensity ^ gamma
  let corrected : ℝ := linear_intensity * gain
  pyIntR (clamp (corrected ^ (1 / gamma)) 0.0 1.0 * 65535 + 0.5)

/-- The three 256-entry channels computed by
`GammaController.set_temperature` before being handed to
`SetDeviceGammaRamp`. -/
noncomputable def set_temperature_ramp (kelvin : Int) :
    (Fin 256 → Int) × (Fin 256 → Int) × (Fin 256 → Int) :=
  let g := calculate_color_gain kelvin
  (fun i => ramp_entry g.1 i.val,
   fun i => ramp_entry g.2.1 i.val,
   fun i => ramp_entry g.2.2 i.val)

/-- One entry of the linear reset ramp built by
`GammaController.reset_gamma`: `int((i / 255.0) * 65535 + 0.5)`,
identical in every channel. -/
noncomputable def reset_gamma_entry (i : Nat) : Int :=
  pyIntR ((i : ℝ) / 255.0 * 65535 + 0.5)

end Gamma

/-! ## HotkeyManager (src/hotkey_manager.py) -/

namespace Hotkey

/-- Keys as seen by the listener: a special key (an attribute of the
keyboard library's `Key` enumeration, identified by its name) or an
ordinary character key (`KeyCode.from_char`). -/
inductive Key : Type
  | special (name : String)
  | char (c : Char)
deriving DecidableEq, Repr

/-- Attribute names of the underlying keyboard library's special-key
enumeration (pynput `keyboard.Key`), external to this repository;
`getattr(keyboard.Key, key_name, None)` succeeds exactly on these. -/
def pynput_key_names : List String :=
  ["alt", "alt_gr", "alt_l", "alt_r", "backspace", "caps_lock",
   "cmd", "cmd_l", "cmd_r", "ctrl", "ctrl_l", "ctrl_r", "delete",
   "down", "end", "enter", "esc",
   "f1", "f2", "f3", "f4", "f5", "f6", "f7", "f8", "f9", "f10",
   "f11", "f12", "f13", "f14", "f15", "f16", "f17", "f18", "f19", "f20",
   "home", "insert", "left", "media_next", "media_play_pause",
   "media_previous", "media_volume_down", "media_volume_mute",
   "media_volume_up", "menu", "num_lock", "page_down", "page_up",
   "pause", "print_screen", "right", "scroll_lock",
   "shift", "shift_l", "shift_r", "space", "tab", "up"]

/-- Model of `HotkeyManager._parse_hotkey`: lowercase the chord string,
split on `+`, strip each part; a `<name>` part is looked up in the
special-key enumeration (with the `cmd*` alias fallback), a single
character becomes a character key, and every other part is skipped with
a warning. The result is the unordered set of parsed keys. -/
def parse_hotkey (hotkey_string : String) : Finset Key :=
  let parts := (hotkey_string.toLower).splitOn ("+")
  parts.foldl
    (fun keys part =>
      let part := part.trim
      if part.front = '<' ∧ part.back = '>' then
        let key_name := (part.drop 1).dropRight 1
        if pynput_key_names.contains key_name then
          insert (Key.special key_name) keys
        else if key_name.startsWith ("cmd") then
          insert (Key.special ("cmd")) keys
        else
          keys
      else if part.length = 1 then
        insert (Key.char part.front) keys
      else
        keys)
    ∅

/-- The pre-parsed chord table `hotkeys_to_check` built in
`HotkeyManager._run_listener` from the keys of `hotkey_map` (a Python
dict, so the chord strings are distinct). -/
def hotkeys_to_check (hotkey_map : List String) : List (String × Finset Key) :=
  hotkey_map.map fun hk => (hk, parse_hotkey hk)

/-- Model of the `on_press` callback in `HotkeyManager._run_listener`:
add the key to the held set, then emit `hotkey_pressed` for every chord
whose required key set is a subset of the held set. Returns the new
held set and the emitted chord identifiers, in table order. -/
def on_press (chords : List (String × Finset Key)) (pressed_keys : Finset Key)
    (key : Key) : Finset Key × List String :=
  let pressed := insert key pressed_keys
  (pressed, (chords.filter fun c => decide (c.2 ⊆ pressed)).map Prod.fst)

/-- Model of the `on_release` callback in `HotkeyManager._run_listener`:
remove the key from the held set if present; no events are emitted. -/
def on_release (pressed_keys : Finset Key) (key : Key) : Finset Key × List String :=
  (if key ∈ pressed_keys then pressed_keys.erase key else pressed_keys, [])

end Hotkey

end EyeProtector

namespace EyeProtector
namespace Reminder

theorem tick_of_pos (s : Reminder) (h : 0 < s.remaining_seconds) :
    tick s = ({ s with remaining_seconds := s.remaining_seconds - 1 }, []) := by
  rw [tick, if_pos h]

theorem tickN_add (a b : Nat) (s : Reminder) :
    tickN (a + b) s = tickN b (tickN a s) := by
  induction a generalizing s with
  | zero => simp [tickN]
  | succ n ih =>
    have h1 : tickN (n + 1 + b) s = tickN (n + b) (tick s).1 := by
      rw [Nat.succ_add]; rfl
    rw [h1, ih]
    rfl

theorem tickN_countdown (k : Nat) (s : Reminder) (h : (k : Int) ≤ s.remaining_seconds) :
    tickN k s = { s with remaining_seconds := s.remaining_seconds - (k : Int) } := by
  induction k generalizing s with
  | zero => simp [tickN]
  | succ n ih =>
    have hpos : 0 < s.remaining_seconds := by
      have h' : ((n : Int) + 1) ≤ s.remaining_seconds := by exact_mod_cast h
      omega
    have h1 : tickN (n + 1) s = tickN n { s with remaining_seconds := s.remaining_seconds - 1 } := by
      show tickN n (tick s).1 = _
      rw [tick_of_pos s hpos]
    rw [h1, ih]
    · have h2 : s.remaining_seconds - 1 - (n : Int) = s.remaining_seconds - ((n : Nat) + 1 : Int) := by
        ring
      simp only [h2]
      norm_cast
    · simp only []
      push_cast at h
      omega

theorem start_timer_of_pos (s : Reminder) (h : 0 < s.work_hours) :
    start_timer s =
      ({ s with state := RState.working,
                remaining_seconds := s.work_hours * 3600,
                timer_active := true }, []) := by
  rw [start_timer, if_neg (by omega)]

theorem tick_working_zero (s : Reminder) (h0 : s.remaining_seconds = 0)
    (hw : s.state = RState.working) :
    tick s = ({ s with state := RState.resting,
                       remaining_seconds := s.rest_minutes * 60,
                       rest_periods_today := s.rest_periods_today + 1 },
              [REvent.restStarted (s.rest_minutes * 60)]) := by
  rw [tick, if_neg (by omega), if_pos hw]
  rfl

theorem tick_resting_zero (s : Reminder) (h0 : s.remaining_seconds = 0)
    (hs : s.state = RState.resting) (hw : 0 < s.work_hours) :
    tick s = ({ s with state := RState.working,
                       remaining_seconds := s.work_hours * 3600,
                       timer_active := true },
              [REvent.restEnded]) := by
  rw [tick, if_neg (by omega), if_neg (by simp [hs]), if_pos hs,
      end_rest_period, start_timer_of_pos s hw]

end Reminder
end EyeProtector
namespace EyeProtector
namespace Reminder

theorem reminder_full_cycle (s : Reminder) (w r : Nat)
    (hw : 0 < w) ( _hr : 0 < r)
    (hwh : s.work_hours = (w : Int)) (hrm : s.rest_minutes = (r : Int)) :
    start_timer s =
      ({ s with state := RState.working,
                remaining_seconds := (w : Int) * 3600,
                timer_active := true }, []) ∧
    (∀ k : Nat, k ≤ 3600 * w →
      tickN k (start_timer s).1 =
        { s with state := RState.working,
                 remaining_seconds := (w : Int) * 3600 - (k : Int),
                 timer_active := true }) ∧
    (tick (tickN (3600 * w) (start_timer s).1)).2 =
      [REvent.restStarted ((r : Int) * 60)] ∧
    (∀ k : Nat, k ≤ 60 * r →
      tickN (3600 * w + 1 + k) (start_timer s).1 =
        { s with state := RState.resting,
                 remaining_seconds := (r : Int) * 60 - (k : Int),
                 rest_periods_today := s.rest_periods_today + 1,
                 timer_active := true }) ∧
    (tick (tickN (3600 * w + 60 * r + 1) (start_timer s).1)).2 = [REvent.restEnded] ∧
    tickN (3600 * w + 60 * r + 2) (start_timer s).1 =
      { s with state := RState.working,
               remaining_seconds := (w : Int) * 3600,
               rest_periods_today := s.rest_periods_today + 1,
               timer_active := true } := by
  have hwz : 0 < s.work_hours := by rw [hwh]; exact_mod_cast hw
  have hstart : start_timer s =
      ({ s with state := RState.working,
                remaining_seconds := (w : Int) * 3600,
                timer_active := true }, []) := by
    rw [start_timer_of_pos s hwz, hwh]
  -- countdown through the working phase
  have hwork : ∀ k : Nat, k ≤ 3600 * w →
      tickN k (start_timer s).1 =
        { s with state := RState.working,
                 remaining_seconds := (w : Int) * 3600 - (k : Int),
                 timer_active := true } := by
    intro k hk
    rw [hstart]
    rw [tickN_countdown k _ (by simp; omega)]
  -- state after the working countdown
  have hW : tickN (3600 * w) (start_timer s).1 =
      { s with state := RState.working,
               remaining_seconds := 0,
               timer_active := true } := by
    rw [hwork (3600 * w) le_rfl]
    have : (w : Int) * 3600 - ((3600 * w : Nat) : Int) = 0 := by push_cast; ring
    rw [this]
  -- the tick that enters the rest phase
  have htickW : tick (tickN (3600 * w) (start_timer s).1) =
      ({ s with state := RState.resting,
                remaining_seconds := (r : Int) * 60,
                rest_periods_today := s.rest_periods_today + 1,
                timer_active := true },
       [REvent.restStarted ((r : Int) * 60)]) := by
    rw [hW, tick_working_zero _ rfl rfl]
    simp [hrm]
  have hrest : ∀ k : Nat, k ≤ 60 * r →
      tickN (3600 * w + 1 + k) (start_timer s).1 =
        { s with state := RState.resting,
                 remaining_seconds := (r : Int) * 60 - (k : Int),
                 rest_periods_today := s.rest_periods_today + 1,
                 timer_active := true } := by
    intro k hk
    rw [tickN_add (3600 * w + 1) k, tickN_add (3600 * w) 1]
    have h1 : tickN 1 (tickN (3600 * w) (start_timer s).1) =
        { s with state := RState.resting,
                 remaining_seconds := (r : Int) * 60,
                 rest_periods_today := s.rest_periods_today + 1,
                 timer_active := true } := by
      show (tick (tickN (3600 * w) (start_timer s).1)).1 = _
      rw [htickW]
    rw [h1, tickN_countdown k _ (by simp; omega)]
  have hR : tickN (3600 * w + 60 * r + 1) (start_timer s).1 =
      { s with state := RState.resting,
               remaining_seconds := 0,
               rest_periods_today := s.rest_periods_today + 1,
               timer_active := true } := by
    have hidx : 3600 * w + 60 * r + 1 = 3600 * w + 1 + 60 * r := by omega
    rw [hidx, hrest (60 * r) le_rfl]
    have : (r : Int) * 60 - ((60 * r : Nat) : Int) = 0 := by push_cast; ring
    rw [this]
  have htickR : tick (tickN (3600 * w + 60 * r + 1) (start_timer s).1) =
      ({ s with state := RState.working,
                remaining_seconds := (w : Int) * 3600,
                rest_periods_today := s.rest_periods_today + 1,
                timer_active := true },
       [REvent.restEnded]) := by
    rw [hR, tick_resting_zero _ rfl rfl (by simp [hwh]; exact_mod_cast hw)]
    simp [hwh]
  refine ⟨hstart, hwork, by rw [htickW], hrest, by rw [htickR], ?_⟩
  have hidx : 3600 * w + 60 * r + 2 = (3600 * w + 60 * r + 1) + 1 := by omega
  rw [hidx, tickN_add (3600 * w + 60 * r + 1) 1]
  show (tick (tickN (3600 * w + 60 * r + 1) (start_timer s).1)).1 = _
  rw [htickR]

end Reminder
end EyeProtector
namespace EyeProtector
namespace Reminder

theorem inv_init : Inv init := by
  refine ⟨by norm_num [init], by norm_num [init], by norm_num [init], by simp [init]⟩

theorem inv_step {s s' : Reminder} (h : Inv s) (hst : Step s s') : Inv s' := by
  obtain ⟨h1, h2, h3, h4⟩ := h
  cases hst with
  | start =>
    by_cases hle : s.work_hours ≤ 0
    · simpa [start_timer, hle, Inv] using ⟨h1, h2, h3, h4⟩
    · simp only [start_timer, hle, if_false, Bool.false_eq_true, ite_false, Inv]
      refine ⟨by simp; omega, by simpa using h2, by simpa using h3, by simp⟩
  | stop =>
    simp only [stop_timer, Inv]
    refine ⟨by simp, by simpa using h2, by simpa using h3, by simp⟩
  | set_dur wh rm hw hr =>
    by_cases ha : s.timer_active = true
    · simp only [set_durations, ha, if_true, start_timer, not_le.mpr hw, if_false, Inv]
      refine ⟨by simp; omega, by simpa using hw, by simpa using hr, by simp⟩
    · simp only [set_durations, ha, Inv]
      simp only [Bool.false_eq_true, ite_false, if_neg ha]
      refine ⟨by simpa using h1, by simpa using hw, by simpa using hr, ?_⟩
      simp only [ha] at h4
      have hidle : s.state = RState.idle := by
        by_contra hcon
        exact absurd (h4.mpr hcon) (by simp [ha])
      simp [hidle, ha]
  | tick_step hact =>
    have hne : s.state ≠ RState.idle := h4.mp hact
    by_cases hpos : s.remaining_seconds > 0
    · simp only [tick, hpos, if_true, ite_true, Inv]
      refine ⟨by simp; omega, by simpa using h2, by simpa using h3, by simpa using h4⟩
    · rcases hstate : s.state with _ | _ | _
      · exact absurd hstate hne
      · simp only [tick, hpos, ite_false, hstate, if_true, ite_true, start_rest_period, Inv,
          reduceIte]
        refine ⟨by simp; omega, by simpa using h2, by simpa using h3, by simpa using hact⟩
      · simp only [tick, hpos, ite_false, hstate, end_rest_period, start_timer,
          not_le.mpr h2, reduceIte, Inv]
        refine ⟨by simp; omega, by simpa using h2, by simpa using h3, by simp⟩

theorem reachable_inv {s : Reminder} (hs : Reachable s) : Inv s := by
  induction hs with
  | init => exact inv_init
  | step _ hst ih => exact inv_step ih hst

end Reminder
end EyeProtector
namespace EyeProtector
namespace Reminder

theorem reminder_full_cycle_witness :
    tickN 3902 (start_timer Reminder.init).1 =
      { Reminder.init with state := RState.working, remaining_seconds := 3600,
                           rest_periods_today := 1, timer_active := true } := by
  have h := (reminder_full_cycle Reminder.init 1 5 (by decide) (by decide)
    (by decide) (by decide)).2.2.2.2.2
  norm_num at h
  exact h

theorem reminder_cycle_incomplete_after_work_plus_rest_ticks :
    (tickN 3660 (start_timer { Reminder.init with rest_minutes := 1 }).1).state =
      RState.resting ∧
    (tickN 3660 (start_timer { Reminder.init with rest_minutes := 1 }).1).remaining_seconds = 1 := by
  have hs : start_timer { Reminder.init with rest_minutes := 1 } =
      ({ work_hours := 1, rest_minutes := 1, state := RState.working,
         remaining_seconds := 3600, rest_periods_today := 0, timer_active := true }, []) := by
    decide
  have h1 : tickN 3600 (start_timer { Reminder.init with rest_minutes := 1 }).1 =
      { work_hours := 1, rest_minutes := 1, state := RState.working,
        remaining_seconds := 0, rest_periods_today := 0, timer_active := true } := by
    rw [hs, tickN_countdown 3600 _ (by norm_num)]
    norm_num
  have h2 : tickN 3601 (start_timer { Reminder.init with rest_minutes := 1 }).1 =
      { work_hours := 1, rest_minutes := 1, state := RState.resting,
        remaining_seconds := 60, rest_periods_today := 1, timer_active := true } := by
    have h36 : (3601 : Nat) = 3600 + 1 := by norm_num
    rw [h36, tickN_add 3600 1, h1]
    show (tick _).1 = _
    rw [tick_working_zero _ (by norm_num) rfl]
    rfl
  have h3 : tickN 3660 (start_timer { Reminder.init with rest_minutes := 1 }).1 =
      { work_hours := 1, rest_minutes := 1, state := RState.resting,
        remaining_seconds := 1, rest_periods_today := 1, timer_active := true } := by
    have h36 : (3660 : Nat) = 3601 + 59 := by norm_num
    rw [h36, tickN_add 3601 59, h2, tickN_countdown 59 _ (by norm_num)]
    norm_num
  rw [h3]
  exact ⟨rfl, rfl⟩

theorem start_timer_invalid_keeps_state (s : Reminder) (wh rm : Int) (hw : wh ≤ 0) :
    start_timer { s with work_hours := wh, rest_minutes := rm } =
      ({ s with work_hours := wh, rest_minutes := rm }, [REvent.configError]) ∧
    (s.timer_active = true →
      set_durations s wh rm =
        ({ s with work_hours := wh, rest_minutes := rm }, [REvent.configError])) ∧
    (s.timer_active = false →
      set_durations s wh rm = ({ s with work_hours := wh, rest_minutes := rm }, [])) := by
  have hst : start_timer { s with work_hours := wh, rest_minutes := rm } =
      ({ s with work_hours := wh, rest_minutes := rm }, [REvent.configError]) := by
    rw [start_timer, if_pos (by simpa using hw)]
  refine ⟨hst, fun ha => ?_, fun ha => ?_⟩
  · show (if ({ s with work_hours := wh, rest_minutes := rm } : Reminder).timer_active = true
        then start_timer { s with work_hours := wh, rest_minutes := rm }
        else ({ s with work_hours := wh, rest_minutes := rm }, [])) = _
    rw [if_pos ha]
    exact hst
  · show (if ({ s with work_hours := wh, rest_minutes := rm } : Reminder).timer_active = true
        then start_timer { s with work_hours := wh, rest_minutes := rm }
        else ({ s with work_hours := wh, rest_minutes := rm }, [])) = _
    rw [if_neg (by simp [show s.timer_active = false from ha])]

theorem start_timer_invalid_keeps_state_witness :
    start_timer { (start_timer Reminder.init).1 with work_hours := 0, rest_minutes := 1 } =
      ({ (start_timer Reminder.init).1 with work_hours := 0, rest_minutes := 1 },
       [REvent.configError]) ∧
    set_durations (start_timer Reminder.init).1 0 1 =
      ({ (start_timer Reminder.init).1 with work_hours := 0, rest_minutes := 1 },
       [REvent.configError]) := by
  have h := start_timer_invalid_keeps_state (start_timer Reminder.init).1 0 1 (by decide)
  exact ⟨h.1, h.2.1 (by decide)⟩

theorem failing_start_while_active_not_idle :
    (set_durations (start_timer Reminder.init).1 0 1).2 = [REvent.configError] ∧
    (set_durations (start_timer Reminder.init).1 0 1).1.state = RState.working := by
  decide

theorem set_durations_active_restarts (s : Reminder) (wh rm : Int)
    (hs : Reachable s) (hw : 0 < wh) ( _hr : 0 < rm) :
    (s.state ≠ RState.idle →
      set_durations s wh rm =
        ({ s with work_hours := wh, rest_minutes := rm, state := RState.working,
                  remaining_seconds := wh * 3600, timer_active := true }, [])) ∧
    (s.state = RState.idle →
      set_durations s wh rm = ({ s with work_hours := wh, rest_minutes := rm }, [])) := by
  have h4 := (reachable_inv hs).2.2.2
  constructor
  · intro hne
    have ha : s.timer_active = true := h4.mpr hne
    show (if ({ s with work_hours := wh, rest_minutes := rm } : Reminder).timer_active = true
        then start_timer { s with work_hours := wh, rest_minutes := rm }
        else ({ s with work_hours := wh, rest_minutes := rm }, [])) = _
    rw [if_pos ha, start_timer, if_neg (by simpa using not_le.mpr hw)]
  · intro hidle
    have ha : s.timer_active = false := by
      rcases Bool.eq_false_or_eq_true s.timer_active with h | h
      · exact absurd hidle (h4.mp h)
      · exact h
    show (if ({ s with work_hours := wh, rest_minutes := rm } : Reminder).timer_active = true
        then start_timer { s with work_hours := wh, rest_minutes := rm }
        else ({ s with work_hours := wh, rest_minutes := rm }, [])) = _
    rw [if_neg (by simp [show s.timer_active = false from ha])]

theorem set_durations_active_restarts_witness :
    set_durations (start_timer Reminder.init).1 2 3 =
      ({ (start_timer Reminder.init).1 with
          work_hours := 2
          rest_minutes := 3
          state := RState.working
          remaining_seconds := 7200
          timer_active := true }, []) := by
  have h := (set_durations_active_restarts (start_timer Reminder.init).1 2 3
    (Reachable.step Reachable.init (Step.start Reminder.init)) (by decide) (by decide)).1
    (by decide)
  simpa using h

theorem remaining_nonneg_tick_decrements (s : Reminder) (hs : Reachable s) :
    0 ≤ s.remaining_seconds ∧
    (s.remaining_seconds ≠ 0 →
      (tick s).1.remaining_seconds = s.remaining_seconds - 1 ∧ (tick s).2 = []) := by
  have h1 := (reachable_inv hs).1
  refine ⟨h1, fun hne => ?_⟩
  have hpos : 0 < s.remaining_seconds := by omega
  rw [tick_of_pos s hpos]
  exact ⟨rfl, rfl⟩

theorem remaining_nonneg_tick_decrements_witness :
    0 ≤ (start_timer Reminder.init).1.remaining_seconds ∧
    (tick (start_timer Reminder.init).1).1.remaining_seconds =
      (start_timer Reminder.init).1.remaining_seconds - 1 := by
  have h := remaining_nonneg_tick_decrements (start_timer Reminder.init).1
    (Reachable.step Reachable.init (Step.start Reminder.init))
  exact ⟨h.1, (h.2 (by decide)).1⟩

end Reminder
end EyeProtector
namespace EyeProtector
namespace Hotkey

theorem count_map_fst_filter (l : List (String × Finset Key)) (P : Finset Key)
    (id : String) (ks : Finset Key)
    (hmem : (id, ks) ∈ l) (hnd : (l.map Prod.fst).Nodup) :
    ((l.filter fun c => decide (c.2 ⊆ P)).map Prod.fst).count id =
      if ks ⊆ P then 1 else 0 := by
  induction l with
  | nil => cases hmem
  | cons c t ih =>
    rw [List.map_cons, List.nodup_cons] at hnd
    rcases List.mem_cons.mp hmem with hc | ht
    · subst hc
      have hz : ((t.filter fun c => decide (c.2 ⊆ P)).map Prod.fst).count id = 0 := by
        refine List.count_eq_zero.mpr fun hin => hnd.1 ?_
        rcases List.mem_map.mp hin with ⟨c', hc', hfst⟩
        exact List.mem_map.mpr ⟨c', List.mem_of_mem_filter hc', hfst⟩
      by_cases hsub : ks ⊆ P
      · rw [List.filter_cons_of_pos (by simpa using hsub), List.map_cons,
          List.count_cons_self, hz, if_pos hsub]
      · rw [List.filter_cons_of_neg (by simpa using hsub), hz, if_neg hsub]
    · have hc1 : id ≠ c.1 := by
        intro h
        exact hnd.1 (h ▸ List.mem_map_of_mem Prod.fst ht)
      by_cases hcs : c.2 ⊆ P
      · rw [List.filter_cons_of_pos (by simpa using hcs), List.map_cons,
          List.count_cons_of_ne hc1]
        exact ih ht hnd.2
      · rw [List.filter_cons_of_neg (by simpa using hcs)]
        exact ih ht hnd.2

theorem on_press_emits_each_satisfied_chord (chords : List (String × Finset Key))
    (pressed_keys : Finset Key) (key : Key) (id : String) (ks : Finset Key)
    (hmem : (id, ks) ∈ chords) (hnd : (chords.map Prod.fst).Nodup) :
    (on_press chords pressed_keys key).1 = insert key pressed_keys ∧
    (on_press chords pressed_keys key).2.count id =
      (if ks ⊆ insert key pressed_keys then 1 else 0) ∧
    (on_release pressed_keys key).1 = pressed_keys.erase key ∧
    (on_release pressed_keys key).2 = [] := by
  refine ⟨rfl, count_map_fst_filter chords _ id ks hmem hnd, ?_, rfl⟩
  rw [on_release]
  by_cases h : key ∈ pressed_keys
  · simp [h]
  · simp [h, Finset.erase_eq_of_not_mem h]

theorem on_press_emits_each_satisfied_chord_witness :
    (on_press (hotkeys_to_check [("<ctrl>+<alt>+1")])
        {Key.special ("ctrl"), Key.special ("alt")} (Key.char ('1'))).2.count
      ("<ctrl>+<alt>+1") = 1 := by
  have hpeq : parse_hotkey ("<ctrl>+<alt>+1") =
      insert (Key.char ('1')) (insert (Key.special ("alt"))
        (insert (Key.special ("ctrl")) (∅ : Finset Key))) := by
    with_unfolding_all rfl
  have hsub : parse_hotkey ("<ctrl>+<alt>+1") ⊆
      insert (Key.char ('1')) {Key.special ("ctrl"), Key.special ("alt")} := by
    rw [hpeq]
    simp [Finset.insert_subset_iff, Finset.mem_insert]
  have h := (on_press_emits_each_satisfied_chord (hotkeys_to_check [("<ctrl>+<alt>+1")])
    {Key.special ("ctrl"), Key.special ("alt")} (Key.char ('1'))
    ("<ctrl>+<alt>+1") (parse_hotkey ("<ctrl>+<alt>+1"))
    (List.mem_singleton.mpr rfl) (by simp [hotkeys_to_check])).2.1
  rw [if_pos hsub] at h
  exact h

theorem chord_with_empty_keyset_matches_every_keydown (hotkey_map : List String)
    (str : String) (hstr : str ∈ hotkey_map) (hparse : parse_hotkey str = ∅)
    (pressed_keys : Finset Key) (key : Key) :
    str ∈ (on_press (hotkeys_to_check hotkey_map) pressed_keys key).2 := by
  have hmem0 : (str, parse_hotkey str) ∈ hotkeys_to_check hotkey_map :=
    List.mem_map_of_mem _ hstr
  rw [hparse] at hmem0
  refine List.mem_map.mpr ⟨(str, ∅), List.mem_filter.mpr ⟨hmem0, by simp⟩, rfl⟩

theorem chord_with_empty_keyset_matches_every_keydown_witness :
    ("foo+bar") ∈ (on_press (hotkeys_to_check [("foo+bar")]) ∅ (Key.char ('a'))).2 :=
  chord_with_empty_keyset_matches_every_keydown [("foo+bar")] ("foo+bar")
    (List.mem_singleton.mpr rfl) (by with_unfolding_all rfl) ∅ (Key.char ('a'))

theorem on_release_unheld_key_noop (pressed_keys : Finset Key) (key : Key)
    (h : key ∉ pressed_keys) :
    on_release pressed_keys key = (pressed_keys, []) := by
  rw [on_release, if_neg h]

theorem on_release_unheld_key_noop_witness :
    on_release ({Key.special ("ctrl")} : Finset Key) (Key.char ('x')) =
      ({Key.special ("ctrl")}, []) :=
  on_release_unheld_key_noop {Key.special ("ctrl")} (Key.char ('x')) (by simp)

end Hotkey
end EyeProtector
namespace EyeProtector
namespace Brightness

theorem transition_levels_length (current_level level : Int) (steps : Nat) :
    (transition_levels current_level level steps).length = steps := by
  unfold transition_levels
  simp only [List.length_map, List.length_range']

theorem set_brightness_smooth_steps (current_level level : Int)
    (hcur : current_level ≠ -1) (hne : current_level ≠ clamp level 0 100) :
    set_brightness true current_level level true =
      ((List.range' 1 10).map (fun (i : Nat) =>
          pyIntQ ((current_level : ℚ) + (i : ℚ) *
            ((((clamp level 0 100 : Int) : ℚ) - (current_level : ℚ)) / 10)))
        ++ [clamp level 0 100], true) ∧
    (set_brightness true current_level level true).1.length = 11 ∧
    set_brightness true 80 20 true =
      ([74, 68, 62, 56, 50, 44, 38, 32, 26, 20, 20], true) ∧
    List.Chain' (fun a b => b ≤ a) (set_brightness true 80 20 true).1 := by
  have hmain : set_brightness true current_level level true =
      (transition_levels current_level (clamp level 0 100) 10 ++ [clamp level 0 100], true) := by
    simp only [set_brightness, if_neg hcur, reduceIte]
    rw [if_pos (And.intro trivial hne)]
  have hconc : set_brightness true 80 20 true =
      ([74, 68, 62, 56, 50, 44, 38, 32, 26, 20, 20], true) := by
    have h80 : (80 : Int) ≠ clamp 20 0 100 := by norm_num [clamp]
    simp only [set_brightness, reduceIte]
    norm_num [clamp, transition_levels, List.range', pyIntQ]
  refine ⟨?_, ?_, hconc, ?_⟩
  · rw [hmain, transition_levels]
    norm_num
  · rw [hmain]
    simp [transition_levels_length]
  · rw [hconc]
    norm_num

theorem set_brightness_smooth_steps_witness :
    set_brightness true 80 20 true =
      ([74, 68, 62, 56, 50, 44, 38, 32, 26, 20, 20], true) ∧
    List.Chain' (fun a b => b ≤ a) (set_brightness true 80 20 true).1 := by
  have h := set_brightness_smooth_steps 80 20 (by norm_num) (by norm_num [clamp])
  exact ⟨h.2.2.1, h.2.2.2⟩

theorem set_brightness_step_truncates_not_rounds :
    (set_brightness true 0 19 true).1 = [1, 3, 5, 7, 9, 11, 13, 15, 17, 19, 19] ∧
    round ((0 : ℚ) + 1 * (((19 : ℚ) - 0) / 10)) = 2 ∧
    pyIntQ ((0 : ℚ) + 1 * (((19 : ℚ) - 0) / 10)) = 1 := by
  refine ⟨?_, by norm_num [round_eq], by norm_num [pyIntQ]⟩
  simp only [set_brightness, reduceIte]
  norm_num [clamp, transition_levels, List.range', pyIntQ]

end Brightness
end EyeProtector
namespace EyeProtector

theorem clamp_mem {α : Type} [LinearOrder α] (v lo hi : α) (h : lo ≤ hi) :
    lo ≤ clamp v lo hi ∧ clamp v lo hi ≤ hi :=
  ⟨le_max_left _ _, max_le h (min_le_right _ _)⟩

theorem clamp_mono {α : Type} [LinearOrder α] (lo hi : α) {v w : α} (h : v ≤ w) :
    clamp v lo hi ≤ clamp w lo hi :=
  max_le_max le_rfl (min_le_min h le_rfl)

theorem pyIntR_of_nonneg (x : ℝ) (h : 0 ≤ x) : pyIntR x = ⌊x⌋ := if_pos h

theorem pyIntR_mono_of_nonneg {x y : ℝ} (hx : 0 ≤ x) (hxy : x ≤ y) :
    pyIntR x ≤ pyIntR y := by
  rw [pyIntR_of_nonneg x hx, pyIntR_of_nonneg y (hx.trans hxy)]
  exact Int.floor_le_floor hxy

namespace Gamma

theorem calculate_color_gain_bounds (kelvin : Int) :
    (0 ≤ (calculate_color_gain kelvin).1 ∧ (calculate_color_gain kelvin).1 ≤ 1) ∧
    (0 ≤ (calculate_color_gain kelvin).2.1 ∧ (calculate_color_gain kelvin).2.1 ≤ 1) ∧
    (0 ≤ (calculate_color_gain kelvin).2.2 ∧ (calculate_color_gain kelvin).2.2 ≤ 1) := by
  by_cases h : clamp kelvin 1000 10000 ≤ 6500
  · simp only [calculate_color_gain, h, reduceIte]
    refine ⟨⟨by norm_num, by norm_num⟩, ?_, ?_⟩
    · have hc := clamp_mem
        (0.8 + 0.2 * ((((clamp kelvin 1000 10000 : Int) : ℝ) - 1000) / (6500 - 1000)))
        (0.8 : ℝ) 1.0 (by norm_num)
      exact ⟨by linarith [hc.1], by linarith [hc.2]⟩
    · have hc := clamp_mem
        (0.6 + 0.4 * ((((clamp kelvin 1000 10000 : Int) : ℝ) - 1000) / (6500 - 1000)))
        (0.6 : ℝ) 1.0 (by norm_num)
      exact ⟨by linarith [hc.1], by linarith [hc.2]⟩
  · simp only [calculate_color_gain, h, reduceIte]
    refine ⟨?_, ?_, ⟨by norm_num, by norm_num⟩⟩
    · have hc := clamp_mem
        (1.0 - 0.2 * ((((clamp kelvin 1000 10000 : Int) : ℝ) - 6500) / (10000 - 6500)))
        (0.8 : ℝ) 1.0 (by norm_num)
      exact ⟨by linarith [hc.1], by linarith [hc.2]⟩
    · have hc := clamp_mem
        (1.0 - 0.1 * ((((clamp kelvin 1000 10000 : Int) : ℝ) - 6500) / (10000 - 6500)))
        (0.9 : ℝ) 1.0 (by norm_num)
      exact ⟨by linarith [hc.1], by linarith [hc.2]⟩

theorem ramp_entry_bounds (gain : ℝ) (i : Nat) :
    0 ≤ ramp_entry gain i ∧ ramp_entry gain i ≤ 65535 := by
  simp only [ramp_entry]
  have hc := clamp_mem ((((i : ℝ) / 255.0) ^ (2.2 : ℝ) * gain) ^ (1 / (2.2 : ℝ)))
    (0.0 : ℝ) 1.0 (by norm_num)
  have harg : (0 : ℝ) ≤ clamp ((((i : ℝ) / 255.0) ^ (2.2 : ℝ) * gain) ^ (1 / (2.2 : ℝ)))
      0.0 1.0 * 65535 + 0.5 := by
    nlinarith [hc.1, hc.2]
  rw [pyIntR_of_nonneg _ harg]
  constructor
  · exact Int.le_floor.mpr (by push_cast; linarith)
  · have : ⌊clamp ((((i : ℝ) / 255.0) ^ (2.2 : ℝ) * gain) ^ (1 / (2.2 : ℝ)))
        0.0 1.0 * 65535 + 0.5⌋ < 65536 := by
      rw [Int.floor_lt]
      push_cast
      nlinarith [hc.2]
    omega

theorem ramp_entry_mono (gain : ℝ) (hg : 0 ≤ gain) {i j : Nat} (hij : i ≤ j) :
    ramp_entry gain i ≤ ramp_entry gain j := by
  simp only [ramp_entry]
  have hxi : (0 : ℝ) ≤ (i : ℝ) / 255.0 := by positivity
  have hx : (i : ℝ) / 255.0 ≤ (j : ℝ) / 255.0 :=
    (div_le_div_iff_of_pos_right (by norm_num)).mpr (by exact_mod_cast hij)
  have h1 : ((i : ℝ) / 255.0) ^ (2.2 : ℝ) ≤ ((j : ℝ) / 255.0) ^ (2.2 : ℝ) :=
    Real.rpow_le_rpow hxi hx (by norm_num)
  have h2 : ((i : ℝ) / 255.0) ^ (2.2 : ℝ) * gain ≤ ((j : ℝ) / 255.0) ^ (2.2 : ℝ) * gain :=
    mul_le_mul_of_nonneg_right h1 hg
  have h2i : (0 : ℝ) ≤ ((i : ℝ) / 255.0) ^ (2.2 : ℝ) * gain :=
    mul_nonneg (Real.rpow_nonneg hxi _) hg
  have h3 : (((i : ℝ) / 255.0) ^ (2.2 : ℝ) * gain) ^ (1 / (2.2 : ℝ)) ≤
      (((j : ℝ) / 255.0) ^ (2.2 : ℝ) * gain) ^ (1 / (2.2 : ℝ)) :=
    Real.rpow_le_rpow h2i h2 (by norm_num)
  have h4 := clamp_mono (0.0 : ℝ) (1.0 : ℝ) h3
  have hci := clamp_mem ((((i : ℝ) / 255.0) ^ (2.2 : ℝ) * gain) ^ (1 / (2.2 : ℝ)))
    (0.0 : ℝ) 1.0 (by norm_num)
  refine pyIntR_mono_of_nonneg (by nlinarith [hci.1]) ?_
  nlinarith [h4]

end Gamma
end EyeProtector

namespace EyeProtector
namespace Gamma

theorem set_temperature_ramp_bounded_monotone (kelvin : Int)
    ( _hlo : 1000 ≤ kelvin) ( _hhi : kelvin ≤ 10000) :
    (∀ i : Fin 256,
      (0 ≤ (set_temperature_ramp kelvin).1 i ∧ (set_temperature_ramp kelvin).1 i ≤ 65535) ∧
      (0 ≤ (set_temperature_ramp kelvin).2.1 i ∧ (set_temperature_ramp kelvin).2.1 i ≤ 65535) ∧
      (0 ≤ (set_temperature_ramp kelvin).2.2 i ∧ (set_temperature_ramp kelvin).2.2 i ≤ 65535)) ∧
    (∀ i j : Fin 256, i ≤ j →
      (set_temperature_ramp kelvin).1 i ≤ (set_temperature_ramp kelvin).1 j ∧
      (set_temperature_ramp kelvin).2.1 i ≤ (set_temperature_ramp kelvin).2.1 j ∧
      (set_temperature_ramp kelvin).2.2 i ≤ (set_temperature_ramp kelvin).2.2 j) := by
  obtain ⟨⟨hr0, _⟩, ⟨hg0, _⟩, ⟨hb0, _⟩⟩ := calculate_color_gain_bounds kelvin
  simp only [set_temperature_ramp]
  refine ⟨fun i => ⟨ramp_entry_bounds _ _, ramp_entry_bounds _ _, ramp_entry_bounds _ _⟩,
    fun i j hij => ⟨ramp_entry_mono _ hr0 hij, ramp_entry_mono _ hg0 hij,
      ramp_entry_mono _ hb0 hij⟩⟩

theorem set_temperature_ramp_bounded_monotone_witness :
    (∀ i : Fin 256,
      (0 ≤ (set_temperature_ramp 3500).1 i ∧ (set_temperature_ramp 3500).1 i ≤ 65535) ∧
      (0 ≤ (set_temperature_ramp 3500).2.1 i ∧ (set_temperature_ramp 3500).2.1 i ≤ 65535) ∧
      (0 ≤ (set_temperature_ramp 3500).2.2 i ∧ (set_temperature_ramp 3500).2.2 i ≤ 65535)) ∧
    (∀ i j : Fin 256, i ≤ j →
      (set_temperature_ramp 3500).1 i ≤ (set_temperature_ramp 3500).1 j ∧
      (set_temperature_ramp 3500).2.1 i ≤ (set_temperature_ramp 3500).2.1 j ∧
      (set_temperature_ramp 3500).2.2 i ≤ (set_temperature_ramp 3500).2.2 j) :=
  set_temperature_ramp_bounded_monotone 3500 (by norm_num) (by norm_num)

theorem ramp_entry_gain_one (i : Nat) (hi : i ≤ 255) :
    ramp_entry 1 i = reset_gamma_entry i := by
  simp only [ramp_entry, reset_gamma_entry]
  have hx0 : (0 : ℝ) ≤ (i : ℝ) / 255.0 := by positivity
  have hx1 : (i : ℝ) / 255.0 ≤ 1 := by
    rw [div_le_one (by norm_num)]
    have hc : (i : ℝ) ≤ 255 := by exact_mod_cast hi
    linarith
  have hpow : (((i : ℝ) / 255.0) ^ (2.2 : ℝ) * 1) ^ (1 / (2.2 : ℝ)) = (i : ℝ) / 255.0 := by
    rw [mul_one, ← Real.rpow_mul hx0]
    rw [show (2.2 : ℝ) * (1 / 2.2) = 1 by norm_num, Real.rpow_one]
  rw [hpow]
  have hcl : clamp ((i : ℝ) / 255.0) 0.0 1.0 = (i : ℝ) / 255.0 := by
    unfold clamp
    rw [min_eq_left (by linarith), max_eq_right (by linarith)]
  rw [hcl]

theorem set_temperature_6500_equals_reset_ramp :
    calculate_color_gain 6500 = (1, 1, 1) ∧
    clamp (1.0 - 0.2 * (((6500 : ℝ) - 6500) / (10000 - 6500))) 0.8 1.0 = 1 ∧
    clamp (1.0 - 0.1 * (((6500 : ℝ) - 6500) / (10000 - 6500))) 0.9 1.0 = 1 ∧
    ∀ i : Fin 256,
      (set_temperature_ramp 6500).1 i = reset_gamma_entry i.val ∧
      (set_temperature_ramp 6500).2.1 i = reset_gamma_entry i.val ∧
      (set_temperature_ramp 6500).2.2 i = reset_gamma_entry i.val := by
  have hclamp : clamp (6500 : Int) 1000 10000 = 6500 := by
    unfold clamp
    rw [min_eq_left (by norm_num), max_eq_right (by norm_num)]
  have hgain : calculate_color_gain 6500 = (1, 1, 1) := by
    simp only [calculate_color_gain, hclamp, reduceIte]
    have h1 : ((6500 : Int) : ℝ) - 1000 = 5500 := by norm_num
    refine Prod.ext ?_ (Prod.ext ?_ ?_) <;> simp only [h1] <;> unfold clamp <;> norm_num
  refine ⟨hgain, ?_, ?_, ?_⟩
  · unfold clamp
    norm_num
  · unfold clamp
    norm_num
  · intro i
    have hi : i.val ≤ 255 := Nat.lt_succ_iff.mp i.isLt
    simp only [set_temperature_ramp, hgain]
    exact ⟨ramp_entry_gain_one i.val hi, ramp_entry_gain_one i.val hi,
      ramp_entry_gain_one i.val hi⟩

end Gamma
end EyeProtector
